import Mathlib

/-!
Shallow embedding of `src/crates/pubsub/src/service.rs` (the alloy pubsub
service loop) together with the two managers it drives.

Modelling conventions:
* `U256` values (subscription identifiers) are `Nat`; decoding checks the
  256-bit bound explicitly.
* Serialized JSON payloads (`Box<RawValue>`) are `String`s for whole frames
  and a small `RawJson` inductive for response payloads.
* Channels (one-shot reply senders, broadcast senders) are identified by
  `Nat` tokens; sending on a channel is recorded as an `Event` rather than
  mutating shared state, so every service function returns
  `Except ServiceError (ServiceState × List Event)` (or just the events when
  it cannot touch state).
* The tokio task / select machinery is embedded as a pure step function
  `loopStep` over queues: `tokio::select! { biased; ... }` polls its arms in
  textual order, so the step function consults the three sources in exactly
  that order.

The bodies of `InFlight`, `RequestManager` and `SubscriptionManager` are not
part of the repository snapshot (only `service.rs` is); those definitions are
modelled from the specification, as marked in their doc comments.
-/

namespace AlloyPubSub

/-- JSON-RPC request identifier (`alloy_json_rpc::Id`): a number, a string,
or the absent id. -/
inductive Id where
  | number (n : Nat)
  | string (s : String)
  | none
deriving DecidableEq, Repr

/-- A raw JSON value as it appears in a response payload or a
notification: either something that is a JSON encoding of a 256-bit integer
(carrying the integer) or any other raw text. -/
inductive RawJson where
  | u256 (n : Nat)
  | other (s : String)
deriving DecidableEq, Repr

/-- Attempt to deserialize a raw JSON payload as a `U256`: succeeds exactly
when the payload is an integer encoding within 256 bits. -/
def decodeU256 : RawJson → Option Nat
  | RawJson.u256 n => if n < 2 ^ 256 then some n else Option.none
  | RawJson.other _ => Option.none

/-- `alloy_json_rpc::ResponsePayload`: success carrying a raw value, or a
JSON-RPC error object. -/
inductive ResponsePayload where
  | success (raw : RawJson)
  | failure (code : Int) (message : String)
deriving DecidableEq, Repr

/-- `alloy_json_rpc::Response`. -/
structure Response where
  id : Id
  payload : ResponsePayload
deriving DecidableEq, Repr

/-- A caller request kept in serialized form (`SerializedRequest`): its id,
its method name, and the serialized frame kept verbatim for replay. -/
structure SerializedRequest where
  id : Id
  method : String
  serialized : String
deriving DecidableEq, Repr

/-- `RequestMeta` of a typed `Request` the service itself forms. -/
structure RequestMeta where
  id : Id
  method : String
deriving DecidableEq, Repr

/-- A typed `Request` with `U256` parameters, as formed by
`service_unsubscribe`. -/
structure Request where
  meta : RequestMeta
  params : List Nat
deriving DecidableEq, Repr

/-- JSON encoding of a request id. -/
def encodeId : Id → String
  | Id.number n => toString n
  | Id.string s => "\"" ++ s ++ "\""
  | Id.none => "null"

/-- JSON encoding of a `U256` parameter as a quantity hex string. -/
def encodeU256 (n : Nat) : String :=
  "\"0x" ++ String.mk (Nat.toDigits 16 n) ++ "\""

/-- JSON encoding of a `U256` parameter list. -/
def encodeParams (ps : List Nat) : String :=
  "[" ++ String.intercalate "," (ps.map encodeU256) ++ "]"

/-- Modelled from the spec: JSON-RPC serialization of a typed request
(`Request::serialize`, from `alloy_json_rpc`, not in the snapshot). Forming
the frame from a method string, an id, and `U256` parameters is a total
computation, so the result is always `some`; the `Option` codomain mirrors
the fallible `serde_json` signature the code unwraps with
`expect("no ser error")`. -/
def serializeRequest (r : Request) : Option String :=
  some ("\x7b\"id\":" ++ encodeId r.meta.id ++ ",\"method\":\"" ++
    r.meta.method ++ "\",\"params\":" ++ encodeParams r.params ++ "\x7d")

/-- Modelled from the spec: `to_json_raw_value` applied to a local `U256`
subscription id (from `alloy_transport::utils`, not in the snapshot).
Serializing a 256-bit integer to a raw JSON value cannot fail, and the
result parses back as that integer. -/
def toJsonRawValue (n : Nat) : RawJson :=
  RawJson.u256 n

/-- Modelled from the spec: an `InFlight` record — the serialized request
kept verbatim, plus the one-shot reply channel back to the caller
(`channel` is the channel's token). -/
structure InFlight where
  request : SerializedRequest
  channel : Nat
deriving DecidableEq, Repr

/-- Modelled from the spec: `InFlight::new` takes a serialized request and a
fresh channel token and produces the pair (in-flight record, receiver
token). -/
def InFlight.new (req : SerializedRequest) (ch : Nat) : InFlight × Nat :=
  ({ request := req, channel := ch }, ch)

/-- Everything observable the service does besides updating its own state:
frames pushed into `to_socket`, one-shot sends to waiters, broadcast fan-out
to subscribers, `GetSub` replies, and shutting the old handle down. -/
inductive Event where
  | sentFrame (frame : String)
  | oneshot (ch : Nat) (resp : Response)
  | broadcast (ch : Nat) (payload : RawJson)
  | getSubReply (tx : Nat) (subCh : Nat)
  | shutdownOld
deriving DecidableEq, Repr

/-- The fatal errors of the service loop: an outbound send failing because
the backend task is gone, the connector refusing to reconnect, and a panic
(`unwrap`/`expect` firing). -/
inductive ServiceError where
  | backendGone
  | reconnectFailed
  | panicked
deriving DecidableEq, Repr

/-- Modelled from the spec: the `RequestManager`, a map from request id to
in-flight record, held as an association list in insertion order. -/
structure RequestManager where
  reqs : List (Id × InFlight)
deriving DecidableEq, Repr

/-- Look an in-flight record up by request id. -/
def findInFlight : List (Id × InFlight) → Id → Option InFlight
  | [], _ => Option.none
  | (i, ifl) :: rest, target =>
      if i = target then some ifl else findInFlight rest target

/-- Modelled from the spec: `RequestManager::insert` indexes by the
request's id; on collision the prior record is overwritten. -/
def RequestManager.insert (m : RequestManager) (ifl : InFlight) :
    RequestManager :=
  { reqs := m.reqs.filter (fun p => decide (p.1 ≠ ifl.request.id)) ++
      [(ifl.request.id, ifl)] }

/-- `RequestManager::len`. -/
def RequestManager.len (m : RequestManager) : Nat :=
  m.reqs.length

/-- The classifier gate: the stored request is a subscription request when
its method is `eth_subscribe`. -/
def isSubscriptionRequest (req : SerializedRequest) : Bool :=
  req.method == "eth_subscribe"

/-- Modelled from the spec: `RequestManager::handle_response`. Look up by
the response id (no entry: discard). The record is removed. If the payload
decodes as a `U256` and the stored request is a subscription request, return
the pair `(server_id, in_flight)` without contacting the waiter; otherwise
forward the response to the waiter over its one-shot. -/
def RequestManager.handle_response (m : RequestManager) (resp : Response) :
    RequestManager × Option (Nat × InFlight) × List Event :=
  match findInFlight m.reqs resp.id with
  | Option.none => (m, Option.none, [])
  | some ifl =>
      let m' : RequestManager :=
        { reqs := m.reqs.filter (fun p => decide (p.1 ≠ resp.id)) }
      match resp.payload with
      | ResponsePayload.success raw =>
          match decodeU256 raw with
          | some serverId =>
              if isSubscriptionRequest ifl.request then
                (m', some (serverId, ifl), [])
              else
                (m', Option.none, [Event.oneshot ifl.channel resp])
          | Option.none => (m', Option.none, [Event.oneshot ifl.channel resp])
      | ResponsePayload.failure _ _ =>
          (m', Option.none, [Event.oneshot ifl.channel resp])

/-- Modelled from the spec: one subscription record — the original subscribe
request kept verbatim for replay, and the broadcast channel's token. The
current server id lives in the manager's `serverToLocal` index (absent
during reconnection). -/
structure SubscriptionRecord where
  request : SerializedRequest
  channel : Nat
deriving DecidableEq, Repr

/-- Modelled from the spec: the `SubscriptionManager` — the ordered
`local id → record` index, the `server id → local id` index, and the source
of fresh local ids (the spec generates an unpredictable 256-bit value; the
model generates from a counter, which preserves exactly the property the
service relies on: a fresh local id differs from every id the counter
already produced). -/
structure SubscriptionManager where
  localToSub : List (Nat × SubscriptionRecord)
  serverToLocal : List (Nat × Nat)
  nextLocalId : Nat
deriving DecidableEq, Repr

/-- Look a subscription record up by local id. -/
def findRecord : List (Nat × SubscriptionRecord) → Nat → Option SubscriptionRecord
  | [], _ => Option.none
  | (l, rec) :: rest, target =>
      if l = target then some rec else findRecord rest target

/-- Find the local id of the record storing a given subscribe request. -/
def findLocalByReq : List (Nat × SubscriptionRecord) → SerializedRequest →
    Option Nat
  | [], _ => Option.none
  | (l, rec) :: rest, req =>
      if rec.request = req then some l else findLocalByReq rest req

/-- Look a local id up by server id. -/
def lookupServer : List (Nat × Nat) → Nat → Option Nat
  | [], _ => Option.none
  | (sv, l) :: rest, target =>
      if sv = target then some l else lookupServer rest target

/-- Modelled from the spec: `SubscriptionManager::upsert`. If a record
already exists for this request, associate the new server id with its
existing local id; else allocate a fresh local id, create a broadcast
channel, and insert the record at the end of the iteration order. Either
way the `server id → local id` index afterwards carries the new
association. -/
def SubscriptionManager.upsert (m : SubscriptionManager)
    (req : SerializedRequest) (serverId : Nat) : SubscriptionManager :=
  match findLocalByReq m.localToSub req with
  | some localId =>
      { m with serverToLocal :=
          (serverId, localId) ::
            m.serverToLocal.filter (fun p => decide (p.1 ≠ serverId)) }
  | Option.none =>
      let localId := m.nextLocalId
      { localToSub :=
          m.localToSub ++ [(localId, { request := req, channel := localId })],
        serverToLocal :=
          (serverId, localId) ::
            m.serverToLocal.filter (fun p => decide (p.1 ≠ serverId)),
        nextLocalId := localId + 1 }

/-- Modelled from the spec: `SubscriptionManager::local_id_for`. -/
def SubscriptionManager.local_id_for (m : SubscriptionManager)
    (serverId : Nat) : Option Nat :=
  lookupServer m.serverToLocal serverId

/-- Modelled from the spec: `SubscriptionManager::get_rx` hands out a
receiver of the record's broadcast channel, absent when there is no such
subscription. -/
def SubscriptionManager.get_rx (m : SubscriptionManager) (localId : Nat) :
    Option Nat :=
  (findRecord m.localToSub localId).map (fun rec => rec.channel)

/-- Modelled from the spec: `SubscriptionManager::notify`. Look the server
id up; broadcast the payload on the record's channel; silently drop the
notification when the server id is unknown. -/
def SubscriptionManager.notify (m : SubscriptionManager) (serverId : Nat)
    (result : RawJson) : List Event :=
  match m.local_id_for serverId with
  | some localId =>
      match findRecord m.localToSub localId with
      | some rec => [Event.broadcast rec.channel result]
      | Option.none => []
  | Option.none => []

/-- Modelled from the spec: `SubscriptionManager::remove_sub` erases both
indices for the local id (the broadcast channel closes when the record is
dropped). -/
def SubscriptionManager.remove_sub (m : SubscriptionManager)
    (localId : Nat) : SubscriptionManager :=
  { m with
    localToSub := m.localToSub.filter (fun p => decide (p.1 ≠ localId)),
    serverToLocal := m.serverToLocal.filter (fun p => decide (p.2 ≠ localId)) }

/-- Modelled from the spec: `SubscriptionManager::drop_server_ids` clears
the `server id → local id` index and retains the records. -/
def SubscriptionManager.drop_server_ids (m : SubscriptionManager) :
    SubscriptionManager :=
  { m with serverToLocal := [] }

/-- `SubscriptionManager::len`. -/
def SubscriptionManager.len (m : SubscriptionManager) : Nat :=
  m.localToSub.length

/-- An item parsed off the socket (`alloy_json_rpc::PubSubItem`). -/
inductive PubSubItem where
  | response (resp : Response)
  | notification (serverId : Nat) (result : RawJson)
deriving DecidableEq, Repr

/-- A frontend instruction (`ix::PubSubInstruction`). `getSub` carries the
one-shot token the receiver is to be sent through. -/
inductive PubSubInstruction where
  | request (ifl : InFlight)
  | getSub (localId : Nat) (tx : Nat)
  | unsubscribe (localId : Nat)
deriving DecidableEq, Repr

/-- The `ConnectionHandle`: the inbound item queue together with whether the
sending side has been closed, whether `to_socket` sends still succeed, and
whether the error one-shot has fired. -/
structure ConnectionHandle where
  fromSocket : List PubSubItem
  fromSocketClosed : Bool
  socketAlive : Bool
  errored : Bool
deriving DecidableEq, Repr

/-- The state owned by the service task (`PubSubService`). `connector` is
the connector capability, modelled by the queue of handles its
`try_reconnect` will yield (empty: the next reconnect fails). `reqs` is the
frontend instruction channel's queue, `reqsClosed` whether the frontend
handle has been dropped. `nextCh` allocates fresh one-shot channel tokens
for the in-flights the service itself creates. -/
structure ServiceState where
  handle : ConnectionHandle
  connector : List ConnectionHandle
  reqs : List PubSubInstruction
  reqsClosed : Bool
  subs : SubscriptionManager
  in_flights : RequestManager
  nextCh : Nat
deriving DecidableEq, Repr

/-- `PubSubService::dispatch_request`: push the frame into `to_socket`; a
send failure means the backend task died and is surfaced as `BackendGone`. -/
def dispatch_request (s : ServiceState) (brv : String) :
    Except ServiceError (List Event) :=
  if s.handle.socketAlive then Except.ok [Event.sentFrame brv]
  else Except.error ServiceError.backendGone

/-- `PubSubService::service_request`: dispatch the frame, then insert the
in-flight into the request manager. -/
def service_request (s : ServiceState) (ifl : InFlight) :
    Except ServiceError (ServiceState × List Event) := do
  let evs ← dispatch_request s ifl.request.serialized
  Except.ok ({ s with in_flights := s.in_flights.insert ifl }, evs)

/-- `PubSubService::service_get_sub`: send a broadcast receiver through the
one-shot when the subscription exists; otherwise drop the one-shot. -/
def service_get_sub (s : ServiceState) (localId : Nat) (tx : Nat) :
    Except ServiceError (ServiceState × List Event) :=
  match s.subs.get_rx localId with
  | some rx => Except.ok (s, [Event.getSubReply tx rx])
  | Option.none => Except.ok (s, [])

/-- The `eth_unsubscribe` request `service_unsubscribe` forms: id `None`,
method `eth_unsubscribe`, the local id as the single parameter. -/
def unsubRequest (localId : Nat) : Request :=
  { meta := { id := Id.none, method := "eth_unsubscribe" },
    params := [localId] }

/-- `PubSubService::service_unsubscribe`: form the `eth_unsubscribe`
request, serialize it (`expect("no ser error")`: a serialization failure is
a panic), dispatch the frame, then remove the subscription. -/
def service_unsubscribe (s : ServiceState) (localId : Nat) :
    Except ServiceError (ServiceState × List Event) :=
  match serializeRequest (unsubRequest localId) with
  | Option.none => Except.error ServiceError.panicked
  | some brv => do
      let evs ← dispatch_request s brv
      Except.ok ({ s with subs := s.subs.remove_sub localId }, evs)

/-- `PubSubService::service_ix`: dispatch on the instruction. -/
def service_ix (s : ServiceState) (ix : PubSubInstruction) :
    Except ServiceError (ServiceState × List Event) :=
  match ix with
  | PubSubInstruction.request ifl => service_request s ifl
  | PubSubInstruction.getSub localId tx => service_get_sub s localId tx
  | PubSubInstruction.unsubscribe localId => service_unsubscribe s localId

/-- `PubSubService::handle_sub_response`: upsert the subscription, read the
local id back (`unwrap`: `none` is a panic), and send the waiter a success
response carrying the local id as a raw JSON value under the original
request's id. -/
def handle_sub_response (s : ServiceState) (ifl : InFlight) (serverId : Nat) :
    Except ServiceError (ServiceState × List Event) :=
  let request := ifl.request
  let id := request.id
  let subs' := s.subs.upsert request serverId
  match subs'.local_id_for serverId with
  | Option.none => Except.error ServiceError.panicked
  | some localId =>
      let serAlias := toJsonRawValue localId
      Except.ok ({ s with subs := subs' },
        [Event.oneshot ifl.channel
          { id := id, payload := ResponsePayload.success serAlias }])

/-- `PubSubService::handle_item`: a response goes through the request
manager (and, when classified as subscription-opening, through
`handle_sub_response`); a notification goes to the subscription manager. -/
def handle_item (s : ServiceState) (item : PubSubItem) :
    Except ServiceError (ServiceState × List Event) :=
  match item with
  | PubSubItem.response resp =>
      match s.in_flights.handle_response resp with
      | (m', some (serverId, ifl), evs) => do
          let (s', evs') ←
            handle_sub_response { s with in_flights := m' } ifl serverId
          Except.ok (s', evs ++ evs')
      | (m', Option.none, evs) =>
          Except.ok ({ s with in_flights := m' }, evs)
  | PubSubItem.notification serverId result =>
      Except.ok (s, s.subs.notify serverId result)

/-- The drain loop of `PubSubService::reconnect`: `try_recv` the old
handle's queue until empty, feeding each item through `handle_item`. -/
def drainOld : ServiceState → List PubSubItem →
    Except ServiceError (ServiceState × List Event)
  | s, [] => Except.ok (s, [])
  | s, item :: rest => do
      let (s1, evs1) ← handle_item s item
      let (s2, evs2) ← drainOld s1 rest
      Except.ok (s2, evs1 ++ evs2)

/-- The pending-request reissue of `PubSubService::reconnect`: dispatch each
collected payload in order; the records stay in the request manager. -/
def reissueAll (s : ServiceState) : List String →
    Except ServiceError (List Event)
  | [] => Except.ok []
  | brv :: rest => do
      let evs1 ← dispatch_request s brv
      let evs2 ← reissueAll s rest
      Except.ok (evs1 ++ evs2)

/-- The subscription replay of `PubSubService::reconnect`: for each record
construct a fresh `InFlight` around the stored subscribe request (its
receiver is dropped on the spot), insert it into the request manager, and
send the serialized frame. -/
def replaySubs : ServiceState → List (Nat × SubscriptionRecord) →
    Except ServiceError (ServiceState × List Event)
  | s, [] => Except.ok (s, [])
  | s, (_, rec) :: rest =>
      let req := rec.request
      let (ifl, _rx) := InFlight.new req s.nextCh
      let s1 : ServiceState :=
        { s with in_flights := s.in_flights.insert ifl, nextCh := s.nextCh + 1 }
      if s1.handle.socketAlive then do
        let (s2, evs) ← replaySubs s1 rest
        Except.ok (s2, Event.sentFrame req.serialized :: evs)
      else Except.error ServiceError.backendGone

/-- `PubSubService::get_new_backend` followed by the body of
`PubSubService::reconnect`: swap in the handle `try_reconnect` yields
(failure is fatal), drain the old handle's inbound queue through the normal
handler, shut the old handle down, reissue every pending request's payload
(collected before dispatching), drop all server ids, and replay every
subscription. -/
def reconnect (s : ServiceState) :
    Except ServiceError (ServiceState × List Event) :=
  match s.connector with
  | [] => Except.error ServiceError.reconnectFailed
  | newHandle :: remaining =>
      let oldHandle := s.handle
      let s0 : ServiceState :=
        { s with handle := newHandle, connector := remaining }
      do
        let (s1, drainEvs) ← drainOld s0 oldHandle.fromSocket
        let payloads :=
          s1.in_flights.reqs.map (fun p => p.2.request.serialized)
        let reissueEvs ← reissueAll s1 payloads
        let s2 : ServiceState := { s1 with subs := s1.subs.drop_server_ids }
        let (s3, replayEvs) ← replaySubs s2 s2.subs.localToSub
        Except.ok (s3, drainEvs ++ [Event.shutdownOld] ++ reissueEvs ++
          replayEvs)

/-- The outcome of one pass through the select loop in
`PubSubService::spawn`: continue with a new state (having emitted events),
exit the loop with the given result, or block awaiting readiness. -/
inductive StepResult where
  | running (s : ServiceState) (evs : List Event)
  | exited (r : Except ServiceError Unit)
  | pending
deriving Repr

/-- The first select arm: `recv` on `from_socket`. An item is handled (an
error breaks the loop); end-of-stream triggers reconnection. -/
def stepInbound (s : ServiceState) : StepResult :=
  match s.handle.fromSocket with
  | item :: rest =>
      match handle_item
          { s with handle := { s.handle with fromSocket := rest } } item with
      | Except.ok (s', evs) => StepResult.running s' evs
      | Except.error e => StepResult.exited (Except.error e)
  | [] =>
      match reconnect s with
      | Except.ok (s', evs) => StepResult.running s' evs
      | Except.error e => StepResult.exited (Except.error e)

/-- The second select arm: the backend error one-shot fired; reconnect. -/
def stepErrorSignal (s : ServiceState) : StepResult :=
  match reconnect s with
  | Except.ok (s', evs) => StepResult.running s' evs
  | Except.error e => StepResult.exited (Except.error e)

/-- The third select arm: `recv` on the instruction channel. An instruction
is serviced (an error breaks the loop); end-of-stream means the frontend
dropped and the loop breaks with `Ok(())`. -/
def stepInstruction (s : ServiceState) : StepResult :=
  match s.reqs with
  | ix :: rest =>
      match service_ix { s with reqs := rest } ix with
      | Except.ok (s', evs) => StepResult.running s' evs
      | Except.error e => StepResult.exited (Except.error e)
  | [] => StepResult.exited (Except.ok ())

/-- Whether `from_socket.recv()` would complete without blocking: an item is
queued, or the channel is closed (yielding `None`). -/
def inboundReady (s : ServiceState) : Bool :=
  !s.handle.fromSocket.isEmpty || s.handle.fromSocketClosed

/-- Whether `reqs.recv()` would complete without blocking. -/
def instructionReady (s : ServiceState) : Bool :=
  !s.reqs.isEmpty || s.reqsClosed

/-- One pass of the `tokio::select! { biased; ... }` loop in
`PubSubService::spawn`: the arms are polled in textual order, so an inbound
item (or inbound end-of-stream) is taken first, the backend error signal
second, a frontend instruction (or frontend end-of-stream) last. -/
def loopStep (s : ServiceState) : StepResult :=
  if inboundReady s then stepInbound s
  else if s.handle.errored then stepErrorSignal s
  else if instructionReady s then stepInstruction s
  else StepResult.pending

/-- The in-flight records the subscription replay of `reconnect` creates:
one per record, in iteration order, each wrapping the stored subscribe
request, with one-shot channel tokens allocated from `ch0` upward. -/
def replayInFlights : List (Nat × SubscriptionRecord) → Nat →
    List (Id × InFlight)
  | [], _ => []
  | (_, rec) :: rest, ch0 =>
      (rec.request.id, { request := rec.request, channel := ch0 }) ::
        replayInFlights rest (ch0 + 1)

/-! ### Concrete fixtures used by the witness theorems -/

/-- A caller-submitted subscribe request. -/
def sampleSubReq : SerializedRequest :=
  { id := Id.string "a", method := "eth_subscribe", serialized := "subframe" }

/-- A caller-submitted plain request. -/
def samplePlainReq : SerializedRequest :=
  { id := Id.string "7", method := "eth_call", serialized := "plainframe" }

/-- A healthy connection handle with an empty inbound queue. -/
def idleHandle : ConnectionHandle :=
  { fromSocket := [], fromSocketClosed := false, socketAlive := true,
    errored := false }

/-- A subscription manager holding one subscription: local id `0`, server
id `9`, subscribe request `sampleSubReq`. -/
def sampleSubs : SubscriptionManager :=
  { localToSub := [(0, { request := sampleSubReq, channel := 0 })],
    serverToLocal := [(9, 0)],
    nextLocalId := 1 }

/-- A service state with one active subscription, one pending plain
request, and one fresh handle queued in the connector. -/
def sampleState : ServiceState :=
  { handle := idleHandle,
    connector := [idleHandle],
    reqs := [],
    reqsClosed := false,
    subs := sampleSubs,
    in_flights := { reqs := [(samplePlainReq.id,
      { request := samplePlainReq, channel := 100 })] },
    nextCh := 200 }

/-- The in-flight record of the pending subscribe request in the C3
witness scenario. -/
def sampleSubInFlight : InFlight :=
  { request := sampleSubReq, channel := 50 }

/-- A state whose request manager holds one pending subscribe request. -/
def subPendingState : ServiceState :=
  { sampleState with
    in_flights := { reqs := [(sampleSubReq.id, sampleSubInFlight)] } }

/-- The server's subscription-opening response in the C3 witness
scenario (server id `9`). -/
def sampleSubResp : Response :=
  { id := Id.string "a", payload := ResponsePayload.success (RawJson.u256 9) }

/-- The sample state after the frontend handle is dropped. -/
def droppedFrontendState : ServiceState :=
  { sampleState with reqsClosed := true }

/-- The sample state with a dead outbound socket and one queued request
instruction. -/
def deadSocketState : ServiceState :=
  { sampleState with
    handle := { idleHandle with socketAlive := false },
    reqs := [PubSubInstruction.request sampleSubInFlight] }

/-- The sample state with the error signal fired, an inbound notification
queued, and a pending instruction: all three sources ready at once. -/
def busyErroredState : ServiceState :=
  { sampleState with
    handle := { idleHandle with
      fromSocket := [PubSubItem.notification 9 (RawJson.other "x")],
      errored := true },
    reqs := [PubSubInstruction.unsubscribe 0] }

/-- The sample state with the error signal fired and a pending instruction
but a quiet inbound source. -/
def quietErroredState : ServiceState :=
  { sampleState with
    handle := { idleHandle with errored := true },
    reqs := [PubSubInstruction.unsubscribe 0] }

/-- What `reconnect sampleState` produces: the connector's handle swapped
in, the pending request retained, a fresh in-flight (channel `200`)
appended for the replayed subscribe request, server ids dropped, and the
subscription record untouched. -/
def reconnectedSample : ServiceState :=
  { handle := idleHandle,
    connector := [],
    reqs := [],
    reqsClosed := false,
    subs := { localToSub := [(0, { request := sampleSubReq, channel := 0 })],
              serverToLocal := [],
              nextLocalId := 1 },
    in_flights := { reqs :=
      [(samplePlainReq.id, { request := samplePlainReq, channel := 100 }),
       (sampleSubReq.id, { request := sampleSubReq, channel := 200 })] },
    nextCh := 201 }

/-- The sample state whose inbound stream just closed cleanly. -/
def closedInboundState : ServiceState :=
  { sampleState with handle := { idleHandle with fromSocketClosed := true } }

/-- An idle handle whose error one-shot has fired. -/
def erroredHandle : ConnectionHandle :=
  { idleHandle with errored := true }

/-! ### Helper lemmas -/

/-- After `upsert`, the new server id resolves to some local id: the
association is at the head of the `server id → local id` index in either
branch. -/
theorem upsert_localIdFor (m : SubscriptionManager) (req : SerializedRequest)
    (serverId : Nat) :
    ∃ L, (m.upsert req serverId).local_id_for serverId = some L := by
  unfold SubscriptionManager.upsert SubscriptionManager.local_id_for
  cases h : findLocalByReq m.localToSub req with
  | none => exact ⟨m.nextLocalId, by simp [lookupServer]⟩
  | some L => exact ⟨L, by simp [lookupServer]⟩

/-- When a record already exists for the request, `upsert` keeps the
`local id → record` index unchanged and maps the new server id to the
existing local id. -/
theorem upsert_existing (m : SubscriptionManager) (req : SerializedRequest)
    (serverId L : Nat) (h : findLocalByReq m.localToSub req = some L) :
    (m.upsert req serverId).localToSub = m.localToSub ∧
    (m.upsert req serverId).local_id_for serverId = some L := by
  unfold SubscriptionManager.upsert SubscriptionManager.local_id_for
  rw [h]
  exact ⟨rfl, by simp [lookupServer]⟩

/-- `handle_sub_response` always succeeds: it upserts the subscription and
sends the waiter a success response carrying the local id under the
original request's id. -/
theorem handle_sub_response_eq (s : ServiceState) (ifl : InFlight)
    (serverId : Nat) :
    ∃ L, (s.subs.upsert ifl.request serverId).local_id_for serverId = some L ∧
      handle_sub_response s ifl serverId =
        Except.ok ({ s with subs := s.subs.upsert ifl.request serverId },
          [Event.oneshot ifl.channel
            { id := ifl.request.id,
              payload := ResponsePayload.success (toJsonRawValue L) }]) := by
  obtain ⟨L, hL⟩ := upsert_localIdFor s.subs ifl.request serverId
  refine ⟨L, hL, ?_⟩
  unfold handle_sub_response
  simp only [hL]

/-! ### Claims -/

/-- C10: in `handle_sub_response`, after `subs.upsert(request, server_id)`,
`subs.local_id_for(server_id)` always returns `Some`, so the `unwrap` on
its result can never panic for any subscription-opening response the
service handles. -/
theorem c10_upsert_local_id_unwrap_safe :
    ∀ (s : ServiceState) (ifl : InFlight) (serverId : Nat),
      ((s.subs.upsert ifl.request serverId).local_id_for serverId).isSome
        = true ∧
      handle_sub_response s ifl serverId ≠
        Except.error ServiceError.panicked := by
  intro s ifl serverId
  obtain ⟨L, hL, heq⟩ := handle_sub_response_eq s ifl serverId
  refine ⟨by rw [hL]; rfl, ?_⟩
  rw [heq]
  intro hcon
  exact Except.noConfusion hcon

/-- C3: when a response is classified as subscription-opening
(`handle_response` returns a `(server_id, in_flight)` pair), the service
upserts the subscription and then sends the waiter a synthesized JSON-RPC
success response whose payload is the local id serialized as a raw JSON
value and whose id equals the original request's id, so the waiter never
observes the ephemeral server id. -/
theorem c3_sub_open_rewrites_to_local_id (s : ServiceState) (resp : Response)
    (m' : RequestManager) (serverId : Nat) (ifl : InFlight) (evs : List Event)
    (h : s.in_flights.handle_response resp = (m', some (serverId, ifl), evs)) :
    ∃ localId,
      (s.subs.upsert ifl.request serverId).local_id_for serverId
        = some localId ∧
      handle_item s (PubSubItem.response resp) =
        Except.ok
          ({ s with
             in_flights := m',
             subs := s.subs.upsert ifl.request serverId },
           evs ++ [Event.oneshot ifl.channel
             { id := ifl.request.id,
               payload := ResponsePayload.success (toJsonRawValue localId) }]) := by
  obtain ⟨L, hL, heq⟩ :=
    handle_sub_response_eq { s with in_flights := m' } ifl serverId
  refine ⟨L, hL, ?_⟩
  unfold handle_item
  dsimp only
  rw [h]
  dsimp only
  rw [heq]
  rfl

/-- Witness for C3 at a concrete subscription-opening response. -/
theorem c3_witness :
    ∃ localId,
      (subPendingState.subs.upsert sampleSubInFlight.request 9).local_id_for 9
        = some localId ∧
      handle_item subPendingState (PubSubItem.response sampleSubResp) =
        Except.ok
          ({ subPendingState with
             in_flights := { reqs := [] },
             subs := subPendingState.subs.upsert sampleSubInFlight.request 9 },
           [] ++ [Event.oneshot sampleSubInFlight.channel
             { id := sampleSubInFlight.request.id,
               payload := ResponsePayload.success (toJsonRawValue localId) }]) :=
  c3_sub_open_rewrites_to_local_id subPendingState sampleSubResp
    { reqs := [] } 9 sampleSubInFlight [] (by decide)

/-- C9: forming the service's own outbound `eth_unsubscribe` frame (method
`eth_unsubscribe`, one `U256` parameter, id `None`) never fails to
serialize, so the assertion guarding that serialization
(`expect("no ser error")`) never fires. -/
theorem c9_unsub_serialization_never_fails :
    ∀ localId : Nat,
      (serializeRequest (unsubRequest localId)).isSome = true ∧
      ∀ s : ServiceState,
        service_unsubscribe s localId ≠
          Except.error ServiceError.panicked := by
  intro localId
  refine ⟨rfl, ?_⟩
  intro s hcon
  unfold service_unsubscribe serializeRequest at hcon
  by_cases hAlive : s.handle.socketAlive
  · simp [dispatch_request, hAlive, bind, Except.bind] at hcon
  · simp [dispatch_request, hAlive, bind, Except.bind] at hcon

/-- Removing the entries keyed by `localId` leaves nothing for `findRecord`
to find under that key. -/
theorem findRecord_remove (l : List (Nat × SubscriptionRecord)) (localId : Nat) :
    findRecord (l.filter (fun p => decide (p.1 ≠ localId))) localId
      = Option.none := by
  induction l with
  | nil => rfl
  | cons hd tl ih =>
      obtain ⟨a, rec⟩ := hd
      rw [List.filter_cons]
      by_cases h : a = localId
      · simpa [h] using ih
      · simpa [h, findRecord] using ih

/-- A successful `lookupServer` result is a member of the index. -/
theorem lookupServer_mem (l : List (Nat × Nat)) (serverId L : Nat)
    (h : lookupServer l serverId = some L) : (serverId, L) ∈ l := by
  induction l with
  | nil => exact Option.noConfusion h
  | cons hd tl ih =>
      obtain ⟨sv, loc⟩ := hd
      unfold lookupServer at h
      by_cases hsv : sv = serverId
      · rw [if_pos hsv] at h
        injection h with h
        subst hsv
        subst h
        exact List.mem_cons_self _ _
      · rw [if_neg hsv] at h
        exact List.mem_cons_of_mem _ (ih h)

/-- After filtering out every pair whose local id is `localId`, no server id
resolves to `localId` any more. -/
theorem lookupServer_remove (l : List (Nat × Nat)) (localId serverId : Nat) :
    lookupServer (l.filter (fun p => decide (p.2 ≠ localId))) serverId
      ≠ some localId := by
  intro h
  have hmem := lookupServer_mem _ _ _ h
  have hp := List.of_mem_filter hmem
  simp at hp

/-- C8: servicing an `Unsubscribe(local_id)` instruction dispatches an
`eth_unsubscribe` JSON-RPC request whose single parameter is the local id
and whose request id is `None`, and then removes the subscription from the
`SubscriptionManager`, erasing both indices. -/
theorem c8_unsubscribe_dispatch_then_remove (s : ServiceState) (localId : Nat)
    (hAlive : s.handle.socketAlive = true) :
    ∃ brv, serializeRequest (unsubRequest localId) = some brv ∧
      service_unsubscribe s localId =
        Except.ok ({ s with subs := s.subs.remove_sub localId },
          [Event.sentFrame brv]) ∧
      (s.subs.remove_sub localId).get_rx localId = Option.none ∧
      ∀ serverId,
        (s.subs.remove_sub localId).local_id_for serverId ≠ some localId := by
  refine ⟨_, rfl, ?_, ?_, ?_⟩
  · unfold service_unsubscribe serializeRequest
    simp [dispatch_request, hAlive, bind, Except.bind]
  · unfold SubscriptionManager.get_rx SubscriptionManager.remove_sub
    dsimp only
    rw [findRecord_remove]
    rfl
  · intro serverId
    unfold SubscriptionManager.local_id_for SubscriptionManager.remove_sub
    dsimp only
    exact lookupServer_remove _ _ _

/-- Witness for C8: unsubscribing local id `0` from the sample state. -/
theorem c8_witness :
    ∃ brv, serializeRequest (unsubRequest 0) = some brv ∧
      service_unsubscribe sampleState 0 =
        Except.ok ({ sampleState with subs := sampleState.subs.remove_sub 0 },
          [Event.sentFrame brv]) ∧
      (sampleState.subs.remove_sub 0).get_rx 0 = Option.none ∧
      ∀ serverId,
        (sampleState.subs.remove_sub 0).local_id_for serverId ≠ some 0 :=
  c8_unsubscribe_dispatch_then_remove sampleState 0 rfl

/-- C6: when the frontend instruction channel returns end-of-stream (the
frontend handle was dropped) and no other source is ready, the service
loop exits cleanly with success. -/
theorem c6_frontend_drop_clean_exit (s : ServiceState)
    (h1 : s.handle.fromSocket = []) (h2 : s.handle.fromSocketClosed = false)
    (h3 : s.handle.errored = false) (h4 : s.reqs = [])
    (h5 : s.reqsClosed = true) :
    loopStep s = StepResult.exited (Except.ok ()) := by
  unfold loopStep inboundReady instructionReady stepInstruction
  rw [h1, h2, h3, h4, h5]
  simp

/-- Witness for C6 at the concrete dropped-frontend state. -/
theorem c6_witness :
    loopStep droppedFrontendState = StepResult.exited (Except.ok ()) :=
  c6_frontend_drop_clean_exit droppedFrontendState rfl rfl rfl rfl rfl

/-- C7: a failure of `to_socket.send` while dispatching any frame is
surfaced as the `BackendGone` transport error, and servicing a request
instruction in that situation breaks the select loop: the service
terminates with that error instead of retrying the send. -/
theorem c7_send_failure_fatal (s : ServiceState) (brv : String)
    (ifl : InFlight) (rest : List PubSubInstruction)
    (hDead : s.handle.socketAlive = false)
    (h1 : s.handle.fromSocket = []) (h2 : s.handle.fromSocketClosed = false)
    (h3 : s.handle.errored = false)
    (h4 : s.reqs = PubSubInstruction.request ifl :: rest) :
    dispatch_request s brv = Except.error ServiceError.backendGone ∧
    loopStep s = StepResult.exited (Except.error ServiceError.backendGone) := by
  constructor
  · unfold dispatch_request
    rw [hDead]
    rfl
  · unfold loopStep inboundReady instructionReady stepInstruction
    rw [h1, h2, h3, h4]
    simp [service_ix, service_request, dispatch_request, hDead, bind,
      Except.bind]

/-- Witness for C7 at the concrete dead-socket state. -/
theorem c7_witness :
    dispatch_request deadSocketState "frame" =
      Except.error ServiceError.backendGone ∧
    loopStep deadSocketState =
      StepResult.exited (Except.error ServiceError.backendGone) :=
  c7_send_failure_fatal deadSocketState "frame" sampleSubInFlight [] rfl rfl
    rfl rfl rfl

/-- C4: the select over the three sources has deterministic strict
priority. With the backend error signal fired and a frontend instruction
ready, an available inbound item is still processed first; with the
inbound source not ready, the error signal (reconnection) is acted on
before any instruction is serviced. -/
theorem c4_biased_select_priority (s : ServiceState)
    (hErr : s.handle.errored = true) (_hReqs : instructionReady s = true) :
    (s.handle.fromSocket ≠ [] → loopStep s = stepInbound s) ∧
    (s.handle.fromSocket = [] → s.handle.fromSocketClosed = false →
      loopStep s = stepErrorSignal s) := by
  constructor
  · intro hne
    cases hfs : s.handle.fromSocket with
    | nil => exact absurd hfs hne
    | cons item more => simp [loopStep, inboundReady, hfs]
  · intro hnil hopen
    simp [loopStep, inboundReady, hnil, hopen, hErr]

/-- Witness for C4 at the two concrete contention states. -/
theorem c4_witness :
    (busyErroredState.handle.fromSocket ≠ [] →
      loopStep busyErroredState = stepInbound busyErroredState) ∧
    (quietErroredState.handle.fromSocket = [] →
      quietErroredState.handle.fromSocketClosed = false →
      loopStep quietErroredState = stepErrorSignal quietErroredState) :=
  ⟨(c4_biased_select_priority busyErroredState rfl rfl).1,
   (c4_biased_select_priority quietErroredState rfl rfl).2⟩

/-- `reconnect` reads the outgoing handle only through its inbound queue:
two states differing only in the old handle's flags reconnect
identically when the queues agree. -/
theorem reconnect_ignores_old_flags (s : ServiceState) (h' : ConnectionHandle)
    (hfs : h'.fromSocket = s.handle.fromSocket) :
    reconnect { s with handle := h' } = reconnect s := by
  unfold reconnect
  dsimp only
  rw [hfs]

/-- C5: inbound end-of-stream (clean backend close) is handled identically
to the backend error signal firing: the loop initiates reconnection - the
same arm the error signal drives - and continues running when the
connector yields a handle, rather than exiting or surfacing an error. -/
theorem c5_inbound_eof_reconnects (s : ServiceState) (h' : ConnectionHandle)
    (h1 : s.handle.fromSocket = []) (h2 : s.handle.fromSocketClosed = true)
    (h3 : h'.fromSocket = []) (h4 : h'.fromSocketClosed = false)
    (h5 : h'.errored = true) :
    loopStep s = stepErrorSignal s ∧
    loopStep s = loopStep { s with handle := h' } ∧
    ∀ s' evs, reconnect s = Except.ok (s', evs) →
      loopStep s = StepResult.running s' evs := by
  have hstep : loopStep s = stepErrorSignal s := by
    simp [loopStep, inboundReady, h1, h2, stepInbound, stepErrorSignal]
  have hrec : reconnect { s with handle := h' } = reconnect s :=
    reconnect_ignores_old_flags s h' (by rw [h3, h1])
  refine ⟨hstep, ?_, ?_⟩
  · rw [hstep]
    simp [loopStep, inboundReady, h3, h4, h5, stepErrorSignal, hrec]
  · intro s' evs hok
    rw [hstep]
    simp [stepErrorSignal, hok]

/-- Inserting an in-flight whose id is not yet a key appends it, keeping
every existing record (and its one-shot channel) untouched. -/
theorem insert_fresh (m : RequestManager) (ifl : InFlight)
    (h : ∀ p ∈ m.reqs, p.1 ≠ ifl.request.id) :
    (m.insert ifl).reqs = m.reqs ++ [(ifl.request.id, ifl)] := by
  unfold RequestManager.insert
  have hfilter : m.reqs.filter (fun p => decide (p.1 ≠ ifl.request.id))
      = m.reqs := by
    rw [List.filter_eq_self]
    intro p hp
    simpa using h p hp
  rw [hfilter]

/-- Reissuing a list of payloads over a live socket sends exactly those
frames in order. -/
theorem reissueAll_sends (s : ServiceState)
    (hAlive : s.handle.socketAlive = true) (l : List String) :
    reissueAll s l = Except.ok (l.map Event.sentFrame) := by
  induction l with
  | nil => rfl
  | cons b rest ih =>
      unfold reissueAll
      simp [dispatch_request, hAlive, ih, bind, Except.bind]

/-- Replaying subscriptions over a live socket: provided the replayed
request ids collide neither with the pending records nor with each other,
the replay appends one fresh in-flight per record (channels allocated from
`nextCh` up) and sends each stored subscribe frame in iteration order. -/
theorem replaySubs_eq (l : List (Nat × SubscriptionRecord)) :
    ∀ s : ServiceState, s.handle.socketAlive = true →
    (∀ p ∈ l, ∀ q ∈ s.in_flights.reqs, q.1 ≠ p.2.request.id) →
    List.Pairwise (fun p q => p.2.request.id ≠ q.2.request.id) l →
    replaySubs s l = Except.ok
      ({ s with
         in_flights :=
           { reqs := s.in_flights.reqs ++ replayInFlights l s.nextCh },
         nextCh := s.nextCh + l.length },
       l.map (fun p => Event.sentFrame p.2.request.serialized)) := by
  induction l with
  | nil =>
      intro s _ _ _
      simp [replaySubs, replayInFlights]
  | cons hd rest ih =>
      intro s hAlive hfresh hpw
      obtain ⟨lid, rec⟩ := hd
      have hins : (s.in_flights.insert
          { request := rec.request, channel := s.nextCh }).reqs
            = s.in_flights.reqs ++
              [(rec.request.id, { request := rec.request, channel := s.nextCh })] :=
        insert_fresh _ _ (fun q hq => hfresh (lid, rec) (by simp) q hq)
      have hpw' := (List.pairwise_cons.mp hpw)
      have ihs := ih
        { s with
          in_flights := s.in_flights.insert
            { request := rec.request, channel := s.nextCh },
          nextCh := s.nextCh + 1 }
        hAlive
        (by
          intro p hp q hq
          simp only [hins, List.mem_append, List.mem_singleton] at hq
          rcases hq with hq | hq
          · exact hfresh p (List.mem_cons_of_mem _ hp) q hq
          · rw [hq]
            exact hpw'.1 p hp)
        hpw'.2
      unfold replaySubs
      dsimp only [InFlight.new]
      rw [if_pos hAlive]
      rw [ihs]
      simp only [bind, Except.bind]
      rw [hins]
      simp [replayInFlights, List.append_assoc, Nat.add_assoc, Nat.add_comm 1
        rest.length]

/-- A hit in the left list is still the hit after appending on the right:
`findLocalByReq` scans in order. -/
theorem findLocalByReq_append_left (l l2 : List (Nat × SubscriptionRecord))
    (req : SerializedRequest) (L : Nat)
    (h : findLocalByReq l req = some L) :
    findLocalByReq (l ++ l2) req = some L := by
  induction l with
  | nil => exact Option.noConfusion h
  | cons hd tl ih =>
      obtain ⟨a, rec⟩ := hd
      rw [List.cons_append]
      unfold findLocalByReq at h ⊢
      by_cases hr : rec.request = req
      · rw [if_pos hr] at h ⊢
        exact h
      · rw [if_neg hr] at h ⊢
        exact ih h

/-- `upsert` with any request keeps an existing request's local id
resolvable: the existing record is never moved or rekeyed. -/
theorem findLocalByReq_upsert (m : SubscriptionManager)
    (req2 : SerializedRequest) (serverId : Nat) (req : SerializedRequest)
    (L : Nat) (h : findLocalByReq m.localToSub req = some L) :
    findLocalByReq (m.upsert req2 serverId).localToSub req = some L := by
  unfold SubscriptionManager.upsert
  cases hf : findLocalByReq m.localToSub req2 with
  | none =>
      simp only [hf]
      exact findLocalByReq_append_left _ _ _ _ h
  | some L2 =>
      simp only [hf]
      exact h

/-- `handle_item` never rekeys an existing subscription: a request's local
id resolves to the same value afterwards. -/
theorem handle_item_preserves (s : ServiceState) (item : PubSubItem)
    (s1 : ServiceState) (evs : List Event) (req : SerializedRequest) (L : Nat)
    (h : handle_item s item = Except.ok (s1, evs))
    (hL : findLocalByReq s.subs.localToSub req = some L) :
    findLocalByReq s1.subs.localToSub req = some L := by
  cases item with
  | notification serverId result =>
      unfold handle_item at h
      injection h with h
      cases h
      exact hL
  | response resp =>
      unfold handle_item at h
      dsimp only at h
      rcases htrip : s.in_flights.handle_response resp with ⟨m', cls, evs0⟩
      rw [htrip] at h
      cases cls with
      | none =>
          dsimp only at h
          injection h with h
          cases h
          exact hL
      | some pr =>
          obtain ⟨serverId, ifl⟩ := pr
          dsimp only at h
          obtain ⟨L2, hL2, heq⟩ :=
            handle_sub_response_eq { s with in_flights := m' } ifl serverId
          rw [heq] at h
          simp only [bind, Except.bind] at h
          injection h with h
          cases h
          exact findLocalByReq_upsert _ _ _ _ _ hL

/-- Draining any queue of late items through `handle_item` keeps an
existing subscription's local id resolvable. -/
theorem drainOld_preserves (req : SerializedRequest) (L : Nat) :
    ∀ (items : List PubSubItem) (s s1 : ServiceState) (evs : List Event),
      drainOld s items = Except.ok (s1, evs) →
      findLocalByReq s.subs.localToSub req = some L →
      findLocalByReq s1.subs.localToSub req = some L := by
  intro items
  induction items with
  | nil =>
      intro s s1 evs h hL
      unfold drainOld at h
      injection h with h
      cases h
      exact hL
  | cons it rest ih =>
      intro s s1 evs h hL
      unfold drainOld at h
      simp only [bind, Except.bind] at h
      cases hh : handle_item s it with
      | error e =>
          rw [hh] at h
          exact absurd h (by simp)
      | ok pa =>
          obtain ⟨sa, e1⟩ := pa
          rw [hh] at h
          dsimp only at h
          cases hd : drainOld sa rest with
          | error e =>
              rw [hd] at h
              exact absurd h (by simp)
          | ok pb =>
              obtain ⟨sb, e2⟩ := pb
              rw [hd] at h
              dsimp only at h
              injection h with h
              cases h
              exact ih sa _ e2 hd (handle_item_preserves s it sa e1 req L hh hL)

/-- The subscription replay touches only the request manager and the
channel counter: the subscription manager is unchanged. -/
theorem replaySubs_subs (l : List (Nat × SubscriptionRecord)) :
    ∀ (s s3 : ServiceState) (evs : List Event),
      replaySubs s l = Except.ok (s3, evs) → s3.subs = s.subs := by
  induction l with
  | nil =>
      intro s s3 evs h
      unfold replaySubs at h
      injection h with h
      cases h
      rfl
  | cons hd rest ih =>
      intro s s3 evs h
      obtain ⟨lid, rec⟩ := hd
      unfold replaySubs at h
      dsimp only [InFlight.new] at h
      by_cases hAlive : s.handle.socketAlive = true
      · rw [if_pos hAlive] at h
        simp only [bind, Except.bind] at h
        cases hr : replaySubs
            { s with
              in_flights := s.in_flights.insert
                { request := rec.request, channel := s.nextCh },
              nextCh := s.nextCh + 1 } rest with
        | error e =>
            rw [hr] at h
            exact absurd h (by simp)
        | ok pb =>
            obtain ⟨sb, e2⟩ := pb
            rw [hr] at h
            dsimp only at h
            injection h with h
            cases h
            exact (ih _ _ _ hr).trans rfl
      · rw [if_neg hAlive] at h
        exact absurd h (by simp)

/-- Across a whole successful `reconnect`, an existing subscription's
local id resolves to the same value. -/
theorem reconnect_preserves (s s' : ServiceState) (evs : List Event)
    (req : SerializedRequest) (L : Nat)
    (hrec : reconnect s = Except.ok (s', evs))
    (hL : findLocalByReq s.subs.localToSub req = some L) :
    findLocalByReq s'.subs.localToSub req = some L := by
  unfold reconnect at hrec
  cases hc : s.connector with
  | nil =>
      rw [hc] at hrec
      exact absurd hrec (by simp)
  | cons nh rem =>
      rw [hc] at hrec
      dsimp only at hrec
      simp only [bind, Except.bind] at hrec
      cases hd : drainOld { s with handle := nh, connector := rem }
          s.handle.fromSocket with
      | error e =>
          rw [hd] at hrec
          exact absurd hrec (by simp)
      | ok pd =>
          obtain ⟨s1, dEvs⟩ := pd
          rw [hd] at hrec
          dsimp only at hrec
          cases hri : reissueAll s1
              (s1.in_flights.reqs.map fun p => p.2.request.serialized) with
          | error e =>
              rw [hri] at hrec
              exact absurd hrec (by simp)
          | ok rEvs =>
              rw [hri] at hrec
              dsimp only at hrec
              cases hrp : replaySubs { s1 with subs := s1.subs.drop_server_ids }
                  s1.subs.drop_server_ids.localToSub with
              | error e =>
                  rw [hrp] at hrec
                  exact absurd hrec (by simp)
              | ok pp =>
                  obtain ⟨s3, sEvs⟩ := pp
                  rw [hrp] at hrec
                  dsimp only at hrec
                  injection hrec with hrec
                  cases hrec
                  have h1 : findLocalByReq s1.subs.localToSub req = some L :=
                    drainOld_preserves req L s.handle.fromSocket _ _ _ hd hL
                  have h3 := replaySubs_subs _ _ _ _ hrp
                  rw [h3]
                  exact h1

/-- C2: a reconnect (with nothing left to drain from the old socket)
reissues every pending request's serialized payload while retaining each
request-manager record, then clears all server ids via `drop_server_ids`,
then for each subscription record constructs a fresh `InFlight` wrapping
the stored subscribe request, inserts it into the request manager, and
dispatches its serialized frame - in that order. -/
theorem c2_reconnect_protocol (s : ServiceState)
    (newHandle : ConnectionHandle) (remaining : List ConnectionHandle)
    (hconn : s.connector = newHandle :: remaining)
    (hfs : s.handle.fromSocket = [])
    (hAlive : newHandle.socketAlive = true)
    (hfresh : ∀ p ∈ s.subs.localToSub, ∀ q ∈ s.in_flights.reqs,
      q.1 ≠ p.2.request.id)
    (hpw : List.Pairwise (fun p q => p.2.request.id ≠ q.2.request.id)
      s.subs.localToSub) :
    reconnect s = Except.ok
      ({ s with
         handle := newHandle,
         connector := remaining,
         subs := s.subs.drop_server_ids,
         in_flights := { reqs := s.in_flights.reqs ++
           replayInFlights s.subs.localToSub s.nextCh },
         nextCh := s.nextCh + s.subs.localToSub.length },
       [Event.shutdownOld] ++
         s.in_flights.reqs.map
           (fun p => Event.sentFrame p.2.request.serialized) ++
         s.subs.localToSub.map
           (fun p => Event.sentFrame p.2.request.serialized)) := by
  unfold reconnect
  rw [hconn]
  dsimp only
  rw [hfs]
  dsimp only [drainOld]
  simp only [bind, Except.bind]
  rw [reissueAll_sends _ hAlive]
  have hreplay := replaySubs_eq s.subs.drop_server_ids.localToSub
    { s with
      handle := newHandle,
      connector := remaining,
      subs := s.subs.drop_server_ids }
    hAlive hfresh hpw
  rw [hreplay]
  simp [List.map_map, Function.comp_def, SubscriptionManager.drop_server_ids]

/-- Witness for C2: reconnecting the sample state (one pending plain
request, one active subscription). -/
theorem c2_witness :
    reconnect sampleState = Except.ok
      ({ sampleState with
         handle := idleHandle,
         connector := [],
         subs := sampleState.subs.drop_server_ids,
         in_flights := { reqs := sampleState.in_flights.reqs ++
           replayInFlights sampleState.subs.localToSub sampleState.nextCh },
         nextCh := sampleState.nextCh + sampleState.subs.localToSub.length },
       [Event.shutdownOld] ++
         sampleState.in_flights.reqs.map
           (fun p => Event.sentFrame p.2.request.serialized) ++
         sampleState.subs.localToSub.map
           (fun p => Event.sentFrame p.2.request.serialized)) :=
  c2_reconnect_protocol sampleState idleHandle [] rfl rfl rfl
    (by decide) (by simp [sampleState, sampleSubs])

/-- C1: a subscription's local id survives a reconnect - the record keeps
resolving to the same local id afterwards - and the replay path's `upsert`
re-associates the new server id with that existing local id without
allocating or reassigning any local id (the `local id → record` index is
unchanged). -/
theorem c1_local_id_stable_across_reconnect (s : ServiceState)
    (req : SerializedRequest) (L : Nat) (s' : ServiceState)
    (evs : List Event)
    (hL : findLocalByReq s.subs.localToSub req = some L)
    (hrec : reconnect s = Except.ok (s', evs)) :
    findLocalByReq s'.subs.localToSub req = some L ∧
    ∀ serverId,
      (s'.subs.upsert req serverId).local_id_for serverId = some L ∧
      (s'.subs.upsert req serverId).localToSub = s'.subs.localToSub := by
  have hpres := reconnect_preserves s s' evs req L hrec hL
  refine ⟨hpres, fun serverId => ?_⟩
  have h2 := upsert_existing s'.subs req serverId L hpres
  exact ⟨h2.2, h2.1⟩

/-- Witness for C1: reconnecting the sample state keeps local id `0` for
the subscribe request, and a replayed response with the fresh server id
`77` re-binds it to `0`. -/
theorem c1_witness :
    findLocalByReq reconnectedSample.subs.localToSub sampleSubReq = some 0 ∧
    ∀ serverId,
      (reconnectedSample.subs.upsert sampleSubReq serverId).local_id_for
        serverId = some 0 ∧
      (reconnectedSample.subs.upsert sampleSubReq serverId).localToSub =
        reconnectedSample.subs.localToSub :=
  c1_local_id_stable_across_reconnect sampleState sampleSubReq 0
    reconnectedSample
    [Event.shutdownOld, Event.sentFrame "plainframe",
      Event.sentFrame "subframe"]
    (by decide) (by rfl)

/-- Witness for C5 at the concrete closed-inbound state. -/
theorem c5_witness :
    loopStep closedInboundState = stepErrorSignal closedInboundState ∧
    loopStep closedInboundState =
      loopStep { closedInboundState with handle := erroredHandle } ∧
    ∀ s' evs, reconnect closedInboundState = Except.ok (s', evs) →
      loopStep closedInboundState = StepResult.running s' evs :=
  c5_inbound_eof_reconnects closedInboundState erroredHandle rfl rfl rfl rfl
    rfl

end AlloyPubSub
